import Mathlib

/-!
Shallow embedding of the session-orchestration core of the voice-agent
backend (file references: backend/agent/agent.py, backend/agent/tools.py,
backend/agent/prompts.py, backend/models/database.py, backend/models/schemas.py,
backend/routers/chat.py), together with theorems settling the specification
claims about it.

Conventions of the embedding:
* Python strings are Lean `String`; Python `int` is `Nat`/`Int`; Python `float`
  cost/latency arithmetic is modelled exactly over `ℚ`.
* Fallible Python code returns `Except`; the relevant exception classes are
  the constructors of `PyError`.
* Python truthiness of optional strings (`if s:`) is `pyTruthyStr`.
* Nondeterministic inputs (wall-clock strings, measured latencies, collaborator
  responses) are explicit parameters.
-/

deriving instance DecidableEq for Except

namespace VoiceAgent

/-- Message roles of `llama_index.core.llms.MessageRole` as used by the agent. -/
inductive Role where
  | system
  | user
  | assistant
deriving DecidableEq, Repr

/-- The `.value` string of a role (used when rendering "role: content" lines). -/
def roleValue : Role → String
  | .system => "system"
  | .user => "user"
  | .assistant => "assistant"

/-- A `ChatMessage` of the conversation history (role plus content). -/
structure Msg where
  role : Role
  content : String
deriving DecidableEq, Repr

/-- Exception classes raised by the embedded code. -/
inductive PyError where
  | attributeError (name : String)
  | valueError (msg : String)
  | indexError
deriving DecidableEq, Repr

/-- Python truthiness of an optional string: `None` and `""` are falsy. -/
def pyTruthyStr : Option String → Bool
  | none => false
  | some s => !(s == "")

/-- Python `x if x else ""` for an optional string. -/
def pyStrOrEmpty : Option String → String
  | none => ""
  | some s => s

/-- Python `not s or s.strip() == ""`: true exactly when every character of
the string is whitespace (in particular for the empty string). -/
def pyIsBlank (s : String) : Bool :=
  s.data.all (fun c => c.isWhitespace)

/-- Exact token usage reported by the chat collaborator (`response.raw.usage`). -/
structure ChatUsage where
  prompt_tokens : Nat
  completion_tokens : Nat
  total_tokens : Nat
deriving DecidableEq, Repr

/-- One tool invocation requested by the chat collaborator
(`tool_call.type`, `tool_call.function.name`, and the parsed
`data_fields` argument of `save_gathered_data`). -/
structure ToolCallReq where
  typ : String
  name : String
  dataFields : List (String × String)
deriving DecidableEq, Repr

/-- A response of `self.llm.achat`: optional message text
(`response.message.content`), the tool calls carried on
`response.raw.choices[0].message.tool_calls`, and optional exact usage. -/
structure ChatResponse where
  content : Option String
  toolCalls : List ToolCallReq
  usage : Option ChatUsage
deriving DecidableEq, Repr

/-- Behaviour of the generation collaborator during one turn: the outcome of
`acomplete` (used by the running-summary code), of the primary `achat`, of the
follow-up `achat`, and of `astream_chat` (its stream of `chunk.delta` values,
or a raised exception). Each is a function of the prompt/messages it is
called with. -/
structure LLMBehavior where
  summaryComplete : String → Except String String
  primaryChat : List Msg → Except String ChatResponse
  followupChat : List Msg → Except String ChatResponse
  streamChat : List Msg → Except String (List String)

/-- One configured information-to-gather item (title and description). -/
structure InfoField where
  title : String
  description : String
deriving DecidableEq, Repr

/-- The mutable state of a `CustomerSupportAgent`: `conversation_history`,
`conversation_summary`, `last_summary_point`, the two memory constants
(instance attributes set to 20 and 4 in `__init__`), the gathered-data store
of the tools object, the `tool_calls` log, and `information_to_gather`. -/
structure AgentState where
  history : List Msg
  summary : Option String
  lastSummaryPoint : Nat
  summaryThreshold : Nat
  keepRecent : Nat
  gathered : List (String × String)
  toolCallsLog : List ToolCallReq
  infoToGather : List InfoField
deriving Repr

/-! ## Tools (backend/agent/tools.py) -/

/-- The methods defined by class `CustomerSupportTools` (tools.py lines 5-51):
exactly `get_current_time`, `log_information` and `search_knowledge_base`. -/
def customerSupportToolsMethods : List String :=
  ["get_current_time", "log_information", "search_knowledge_base"]

/-- Attribute lookup on a `CustomerSupportTools` instance: accessing a method
that the class does not define raises `AttributeError`. -/
def toolsHasMethod (name : String) : Bool :=
  customerSupportToolsMethods.contains name

/-- Modelled from the spec: `CustomerSupportTools.save_gathered_data` is called
by `process_message` (agent.py line 244) and named by the system prompt, but no
such method exists anywhere in the repository. Per the spec the tool registry
collaborator persists gathered-data fields; we model the store as an
association list into which the given fields are merged (existing keys
overwritten, new keys appended). -/
def save_gathered_data (store : List (String × String))
    (fields : List (String × String)) : List (String × String) :=
  fields.foldl (fun acc kv =>
    if acc.any (fun p => p.1 == kv.1)
    then acc.map (fun p => if p.1 == kv.1 then kv else p)
    else acc ++ [kv]) store

/-- Modelled from the spec: `CustomerSupportTools.get_gathered_information` is
called by `_update_system_prompt` (agent.py line 102) but no such method exists
in the repository. Per the spec it reports the gathered-data fields collected
so far; with the store as an association list this is the store itself. -/
def get_gathered_information (store : List (String × String)) :
    List (String × String) :=
  store

/-! ## Memory condensation (agent.py `_generate_conversation_summary`,
`_update_memory`, `_get_condensed_history`) -/

/-- Render one message as a "role: content" line. -/
def msgLine (m : Msg) : String :=
  roleValue m.role ++ ": " ++ m.content

/-- The prompt built by `_generate_conversation_summary` (agent.py 356-372):
a context header that replays the previous summary when one is truthy, the
non-system messages rendered line by line, and the fixed instruction suffix. -/
def summaryPromptOf (st : AgentState) (messagesToSummarize : List Msg) : String :=
  let summaryContext :=
    match st.summary with
    | some s =>
        if s == "" then "Conversation to summarize:\n"
        else "Previous conversation summary:\n" ++ s ++
          "\n\nContinuation of the conversation:\n"
    | none => "Conversation to summarize:\n"
  let conversationText := String.intercalate "\n"
    ((messagesToSummarize.filter (fun m => !(m.role == .system))).map msgLine)
  summaryContext ++ conversationText ++
    "\n\nPlease provide a concise summary of the key points, customer issues, and resolution status from the above conversation. Focus on actionable information and important context."

/-- `_generate_conversation_summary` (agent.py 346-382): build the prompt and
call `self.llm.acomplete`; on success return the stripped text, and on any
exception return `self.conversation_summary or ""` (the failure is swallowed
here, inside the helper). -/
def generate_conversation_summary (llm : LLMBehavior) (st : AgentState)
    (messagesToSummarize : List Msg) : String :=
  match llm.summaryComplete (summaryPromptOf st messagesToSummarize) with
  | .ok response => response.trim
  | .error _ => pyStrOrEmpty st.summary

/-- `_update_memory` (agent.py 409-433). Returns the new state together with a
flag recording whether a summarization call was performed (true exactly when
the code enters the branch that calls `_generate_conversation_summary`). -/
def update_memory (llm : LLMBehavior) (st : AgentState) : AgentState × Bool :=
  let allMessagesExceptSystem := st.history.drop 1
  let nonSummarizedCount := (allMessagesExceptSystem.drop st.lastSummaryPoint).length
  if st.summaryThreshold ≤ nonSummarizedCount then
    let messagesToSummarizeCount := nonSummarizedCount - st.keepRecent
    if 0 < messagesToSummarizeCount then
      let startIdx := 1 + st.lastSummaryPoint
      let messagesToSummarize := (st.history.drop startIdx).take messagesToSummarizeCount
      let newSummary := generate_conversation_summary llm st messagesToSummarize
      ({ st with
          summary := some newSummary,
          lastSummaryPoint := st.lastSummaryPoint + messagesToSummarizeCount }, true)
    else (st, false)
  else (st, false)

/-- Python slice `xs[-k:]`: for `k > 0` the last `k` elements (the whole list
when `k` is at least its length); for `k = 0` the whole list, since `-0 == 0`. -/
def pyLastSlice (k : Nat) (xs : List Msg) : List Msg :=
  if k == 0 then xs else xs.drop (xs.length - k)

/-- `_get_condensed_history` (agent.py 384-407): the system prompt at index 0
(an `IndexError` on an empty history), a synthetic system message replaying
the summary when it is truthy, and the last `keep_recent_messages` messages of
`conversation_history[1:]` when that slice source is nonempty. -/
def get_condensed_history (st : AgentState) : Except PyError (List Msg) :=
  match st.history with
  | [] => .error .indexError
  | h0 :: rest =>
    let condensed := [h0]
    let condensed :=
      if pyTruthyStr st.summary then
        condensed ++ [⟨.system,
          "[Previous conversation summary: " ++ pyStrOrEmpty st.summary ++ "]"⟩]
      else condensed
    let condensed :=
      if rest.isEmpty then condensed
      else condensed ++ pyLastSlice st.keepRecent rest
    .ok condensed

/-! ## Prompts (backend/agent/prompts.py) and the system prompt
(agent.py `_update_system_prompt`).  `SYSTEM_PROMPT` is reproduced split at its
three `.format` placeholders (apostrophes written as `\x27`). -/

/-- Text of `SYSTEM_PROMPT` before the `current_datetime` placeholder. -/
def sysPromptPart1 : String :=
  "You are a professional Amazon customer support agent. Your role is strictly limited to handling customer issues related to orders and packages.\n\nCURRENT DATE AND TIME: "

/-- Text of `SYSTEM_PROMPT` between the `current_datetime` and
`information_to_gather` placeholders. -/
def sysPromptPart2 : String :=
  "\n\nCORE RESPONSIBILITIES:\n- Handle ONLY order and package related issues (broken products, delayed deliveries, reclamations, order changes)\n- Gather required information systematically\n- Be concise: use 1-2 sentences maximum per response\n- Stay focused on the task - no small talk, no unrelated topics\n\nCRITICAL RULES:\n- If you don\x27t have information - NEVER make up or guess details - just say that you are sorry that you can\x27t help right now, but you will get help if you gather all of the informatino and keep gethering necessary information.\n- Do NOT discuss anything unrelated to orders/packages (weather, personal topics, etc.)\n- Do NOT write long explanations or essays\n- Use the save_gathered_data tool IMMEDIATELY when you receive relevant information from the customer\n- You can save multiple fields at once in a single tool call\n- IMPORTANT: When using a tool, ALWAYS provide a conversational message to the user at the same time. Never return just a tool call without a message.\n\nREQUIRED INFORMATION TO GATHER:\n"

/-- Text of `SYSTEM_PROMPT` between the `information_to_gather` and
`gathered_data_status` placeholders. -/
def sysPromptPart3 : String :=
  "\n\nWORKFLOW:\n1. Greet briefly and ask how you can help with their order\n2. As customer provides information, IMMEDIATELY use save_gathered_data tool to record it while also responding naturally to the customer IN THE SAME MESSAGE. For example, if customer says: \x27My order ABC123 hasn\x27t arrived yet\x27, you could respond with: \x27I\x27m sorry to hear that. We will take care of that, but can I have your first and last name please? I will help us to locate your order.\x27 and then call the tool to save \x27order_id\x27: \x27ABC123\x27, \x27issue_type\x27: \x27delayed_delivery\x27 in the same response. (Asuuming the order_id, issue_type, and customer_name are part of the required information to gather)\n3. Ask for missing required fields one at a time\n4. When ALL required fields are gathered, summarize the information and ask for confirmation: \x27Let me confirm the details: [briefly list the key information]. Is everything correct?\x27 Wait for the customer to confirm. If customer doesn\x27t confirm or provides new information, go back to step 2 and update the gathered information accordingly.\n5. After customer confirms, say: \x27Thank you for providing this information. Our team will take care of your issue and contact you soon. Have a great day!\x27 and end the call\n\nGATHERED DATA STATUS:\n"

/-- Text of `SYSTEM_PROMPT` after the `gathered_data_status` placeholder. -/
def sysPromptPart4 : String :=
  "\n\nRemember: Be efficient, factual, and focused. Use the tool to save data as you gather it. Always combine tool calls with natural conversation."

/-- The `info_text` built by `_update_system_prompt` (agent.py 96-99): one
"- title: description" line per configured item, or the fixed default when
`information_to_gather` is empty. -/
def infoTextOf (infoToGather : List InfoField) : String :=
  if infoToGather.isEmpty then
    "- order_id, customer_name, customer_surname, issue_type, issue_description"
  else
    String.intercalate "\n"
      (infoToGather.map (fun item => "- " ++ item.title ++ ": " ++ item.description))

/-- Dictionary lookup `gathered_data[field_title]` guarded by
`field_title in gathered_data`. -/
def lookupGathered (gathered : List (String × String)) (k : String) : Option String :=
  (gathered.find? (fun p => p.1 == k)).map (fun p => p.2)

/-- The `gathered_data_status` built by `_update_system_prompt`
(agent.py 101-113): a checked/unchecked line per configured field when any
data was gathered, else the fixed prompt to start gathering. -/
def gatheredDataStatusOf (gathered : List (String × String))
    (infoToGather : List InfoField) : String :=
  if gathered.isEmpty then
    "No data gathered yet. Start gathering information from the customer."
  else
    String.intercalate "\n" (infoToGather.map (fun field =>
      match lookupGathered gathered field.title with
      | some v => "✓ " ++ field.title ++ ": " ++ v
      | none => "✗ " ++ field.title ++ ": NOT YET GATHERED"))

/-- `SYSTEM_PROMPT.format(...)` applied to the current date-time string and the
state-derived sections (`get_gathered_information` is the spec-modelled store
read; see its docstring). -/
def renderSystemPrompt (now : String) (st : AgentState) : String :=
  sysPromptPart1 ++ now ++ sysPromptPart2 ++ infoTextOf st.infoToGather ++
    sysPromptPart3 ++
    gatheredDataStatusOf (get_gathered_information st.gathered) st.infoToGather ++
    sysPromptPart4

/-- `_update_system_prompt` (agent.py 94-128): rebuild the system prompt and
either replace `conversation_history[0]` when it is a system message or insert
the new system message at index 0. -/
def update_system_prompt (now : String) (st : AgentState) : AgentState :=
  let sp := renderSystemPrompt now st
  match st.history with
  | [] => { st with history := [⟨.system, sp⟩] }
  | m :: rest =>
    if m.role == .system then { st with history := ⟨.system, sp⟩ :: rest }
    else { st with history := ⟨.system, sp⟩ :: m :: rest }

/-! ## Agent construction (agent.py `__init__`, lines 42-92) -/

/-- The `GROQ_MODELS` set of `CustomerSupportAgent` (agent.py 27-40). -/
def GROQ_MODELS : List String :=
  ["llama-3.3-70b-versatile",
   "moonshotai/kimi-k2-instruct-0905",
   "llama-3.1-70b-versatile",
   "llama-3.1-8b-instant",
   "llama-3.2-1b-preview",
   "llama-3.2-3b-preview",
   "llama-3.2-11b-vision-preview",
   "llama-3.2-90b-vision-preview",
   "mixtral-8x7b-32768",
   "gemma-7b-it",
   "gemma2-9b-it",
   "openai/gpt-oss-120b"]

/-- `_is_groq_model` (agent.py 130-140). -/
def is_groq_model (model : String) : Bool :=
  GROQ_MODELS.contains model

/-- The environment variable `__init__` requires for the selected provider. -/
def requiredApiKeyName (model : String) : String :=
  if is_groq_model model then "GROQ_API_KEY" else "OPENROUTER_API_KEY"

/-- Constructor arguments of `CustomerSupportAgent` (model name, temperature,
`information_to_gather or []`). -/
structure AgentConfig where
  model : String
  temperature : ℚ
  informationToGather : List InfoField

/-- `CustomerSupportAgent.__init__` (agent.py 42-92) over an environment
`env` of variables. The fields are initialised, the provider API key is
checked (`if not api_key: raise ValueError`), and finally
`self._update_system_prompt()` runs (line 92).  Its first use of the tools
object is `self.tools.get_gathered_information()` (line 102); when
`CustomerSupportTools` defines no such attribute this raises
`AttributeError`, otherwise the system prompt is installed. -/
def agentInit (env : String → Option String) (now : String)
    (cfg : AgentConfig) : Except PyError AgentState :=
  let base : AgentState :=
    { history := [], summary := none, lastSummaryPoint := 0,
      summaryThreshold := 20, keepRecent := 4,
      gathered := [], toolCallsLog := [],
      infoToGather := cfg.informationToGather }
  let keyName := requiredApiKeyName cfg.model
  if !(pyTruthyStr (env keyName)) then
    .error (.valueError (keyName ++ " not found in environment variables"))
  else
    if toolsHasMethod "get_gathered_information" then
      .ok (update_system_prompt now base)
    else
      .error (.attributeError "get_gathered_information")

/-! ## Response flow (agent.py `process_message`, lines 168-344)

`process_message` is an async generator; we model one invocation as a pure
function returning the final agent state, the list of yielded tuples, and the
list of `conversation_history` snapshots taken after each mutation of the
history.  Yields are modelled as lists of dynamically-typed values so that the
arity of each yielded tuple is part of the result (the caller in
backend/routers/chat.py unpacks them).  The measured wall-clock latencies
(`first_chunk_time - start_time` and `end_time - start_time`, in ms) are the
parameters `fw` and `tw`. -/

/-- A dynamically-typed value appearing in a yielded tuple. -/
inductive PyVal where
  | vstr (s : String)
  | vnum (q : ℚ)
  | vnone
  | vusage (u : ChatUsage)
deriving DecidableEq, Repr

/-- The usage slot of the final yield: the usage dict or `None`. -/
def usageVal : Option ChatUsage → PyVal
  | some u => .vusage u
  | none => .vnone

/-- Result of one `process_message` invocation. -/
structure TurnResult where
  state : AgentState
  yields : List (List PyVal)
  snapshots : List (List Msg)
deriving Repr

/-- The tool-execution loop (agent.py 229-251): for each tool call of type
`function` named `save_gathered_data`, execute the tool on its `data_fields`
argument and record the call both in `tool_calls_made` and in
`self.tool_calls`; any other tool name is ignored. Returns the new state and
`tool_calls_made`. -/
def execToolCalls (st : AgentState) :
    List ToolCallReq → AgentState × List ToolCallReq
  | [] => (st, [])
  | tc :: rest =>
    if tc.typ == "function" && tc.name == "save_gathered_data" then
      let st1 := { st with
        gathered := save_gathered_data st.gathered tc.dataFields,
        toolCallsLog := st.toolCallsLog ++ [tc] }
      let r := execToolCalls st1 rest
      (r.1, tc :: r.2)
    else execToolCalls st rest

/-- Python `repr` of the parsed tool arguments `{"data_fields": {...}}`
(braces written `\x7b`/`\x7d`, quotes `\x27`). -/
def renderArgsDict (fields : List (String × String)) : String :=
  "\x7b\x27data_fields\x27: \x7b" ++
    String.intercalate ", "
      (fields.map (fun p => "\x27" ++ p.1 ++ "\x27: \x27" ++ p.2 ++ "\x27")) ++
    "\x7d\x7d"

/-- The transient system note built before the follow-up call
(agent.py 258-266). -/
def toolInfoMessage (made : List ToolCallReq) : String :=
  "You just used tools successfully: " ++
    String.intercalate "; "
      (made.map (fun tc =>
        "Tool \x27" ++ tc.name ++ "\x27 was executed successfully with data: " ++
          renderArgsDict tc.dataFields)) ++
    ". Now continue the conversation naturally with the customer. Acknowledge what was saved and ask for the next piece of information if needed."

/-- Usage merging after the follow-up call (agent.py 278-289): when the
follow-up response carries usage, add it field-wise into the running
`usage_data` or adopt it when none was recorded yet; otherwise keep
`usage_data` as is. -/
def mergeUsage (usageData followupUsage : Option ChatUsage) : Option ChatUsage :=
  match followupUsage with
  | none => usageData
  | some fu =>
    match usageData with
    | some u => some ⟨u.prompt_tokens + fu.prompt_tokens,
                     u.completion_tokens + fu.completion_tokens,
                     u.total_tokens + fu.total_tokens⟩
    | none => some fu

/-- Yields of the streaming fallback loop (agent.py 309-318): empty deltas are
skipped (`if chunk.delta:`); the first nonempty delta is yielded together with
the first-chunk latency, later ones with `None` in every other slot. -/
def streamYields (deltas : List String) (fw : ℚ) : List (List PyVal) :=
  match deltas.filter (fun d => !(d == "")) with
  | [] => []
  | d :: ds =>
    [.vstr d, .vnum fw, .vnone, .vnone] ::
      ds.map (fun x => [PyVal.vstr x, .vnone, .vnone, .vnone])

/-- The fixed apology appended and yielded by the outer exception handler
(agent.py 338-344). -/
def errorResponseText : String :=
  "I apologize, but I\x27m having trouble processing that. Could you please repeat?"

/-- The fixed fallback used when the model stays silent after the follow-up
call (agent.py 296-298). -/
def recordedInfoFallbackText : String :=
  "I\x27ve recorded that information. What else can I help you with?"

/-- The outer exception handler (agent.py 338-344): append the fixed apology
as an assistant message and yield it with no latency or usage.  `priorYields`
are the yields already emitted before the exception reached the handler. -/
def mkErrorTurn (st : AgentState) (snaps : List (List Msg))
    (priorYields : List (List PyVal)) : TurnResult :=
  let stE := { st with history := st.history ++ [⟨.assistant, errorResponseText⟩] }
  { state := stE,
    yields := priorYields ++ [[.vstr errorResponseText, .vnone, .vnone, .vnone]],
    snapshots := snaps ++ [stE.history] }

/-- The shared tail of the flow (agent.py 320-336): yield the full response
with the total latency when it is nonempty, append it as an assistant message,
and yield the final empty-text marker carrying the total latency and the
usage data. -/
def emitEnd (st : AgentState) (snaps : List (List Msg))
    (priorYields : List (List PyVal)) (fullResponse : String) (tw : ℚ)
    (usageData : Option ChatUsage) : TurnResult :=
  let y1 := if !(fullResponse == "") then
      priorYields ++ [[.vstr fullResponse, .vnum tw, .vnone, .vnone]]
    else priorYields
  let stA := { st with history := st.history ++ [⟨.assistant, fullResponse⟩] }
  { state := stA,
    yields := y1 ++ [[.vstr "", .vnone, .vnum tw, usageVal usageData]],
    snapshots := snaps ++ [stA.history] }

/-- One invocation of `process_message` (agent.py 168-344) on user message
`userMessage`.  Control flow follows the source:

* append the user message, run `_update_memory`, regenerate the system prompt,
  and build the condensed history;
* primary `achat` with tools.  If it raises, fall back to `astream_chat`;
  after that stream the code reads `tool_calls_made` (line 329), a local that
  was never assigned because line 229 sits after the `achat` call, so the
  read raises `UnboundLocalError` and control reaches the outer handler;
* on a primary response: record usage, execute the tool calls, and when the
  text is blank but tools ran, append the transient system note, issue the
  follow-up `achat`, merge its usage, and pop the note.  If the follow-up
  raises, control jumps to the same streaming fallback and the pop never
  runs (the note stays in the history);
* the acknowledgment argument is never added to the history (agent.py 187-189)
  and is omitted here. -/
def process_message (llm : LLMBehavior) (now : String) (fw tw : ℚ)
    (st0 : AgentState) (userMessage : String) : TurnResult :=
  let st1 := { st0 with history := st0.history ++ [⟨.user, userMessage⟩] }
  let snaps1 := [st1.history]
  let st2 := (update_memory llm st1).1
  let st3 := update_system_prompt now st2
  let snaps3 := snaps1 ++ [st3.history]
  match get_condensed_history st3 with
  | .error _ => mkErrorTurn st3 snaps3 []
  | .ok historyToUse =>
    match llm.primaryChat historyToUse with
    | .error _ =>
      match llm.streamChat historyToUse with
      | .error _ => mkErrorTurn st3 snaps3 []
      | .ok deltas =>
        let sy := streamYields deltas fw
        let fullResponse := String.join deltas
        let y2 := if !(fullResponse == "") then
            sy ++ [[.vstr fullResponse, .vnum tw, .vnone, .vnone]]
          else sy
        mkErrorTurn st3 snaps3 y2
    | .ok resp =>
      let usageData := resp.usage
      let r := execToolCalls st3 resp.toolCalls
      let stT := r.1
      let made := r.2
      let fullResponse := pyStrOrEmpty resp.content
      if pyIsBlank fullResponse && !made.isEmpty then
        let stN := { stT with
          history := stT.history ++ [⟨.system, toolInfoMessage made⟩] }
        let snapsN := snaps3 ++ [stN.history]
        match get_condensed_history stN with
        | .error _ => mkErrorTurn stN snapsN []
        | .ok historyForFollowup =>
          match llm.followupChat historyForFollowup with
          | .error _ =>
            match llm.streamChat historyToUse with
            | .error _ => mkErrorTurn stN snapsN []
            | .ok deltas =>
              let sy := streamYields deltas fw
              let fullResponse := String.join deltas
              emitEnd stN snapsN sy fullResponse tw usageData
          | .ok fresp =>
            let usageData := mergeUsage usageData fresp.usage
            let fullResponse := pyStrOrEmpty fresp.content
            let stP := { stN with history := stN.history.dropLast }
            let snapsP := snapsN ++ [stP.history]
            let fullResponse :=
              if pyIsBlank fullResponse then recordedInfoFallbackText
              else fullResponse
            emitEnd stP snapsP [] fullResponse tw usageData
      else
        emitEnd stT snaps3 [] fullResponse tw usageData

/-! ## Persistence model (backend/models/schemas.py and
backend/models/database.py).  The JSON files behind the `Database` class are
modelled as in-memory values: the calls file as a `List Call`, the stats file
as a `SystemStats`.  Monetary and latency floats are modelled exactly over
`ℚ`; timestamps are opaque strings supplied by the caller. -/

/-- A stored message of a call (`Message` in schemas.py; the optional
`audio_duration` is never set by the code paths modelled here). -/
structure DbMessage where
  role : String
  content : String
  timestamp : String
deriving DecidableEq, Repr

/-- `CallStatus` (schemas.py 7-10). -/
inductive CallStatus where
  | pending
  | completed
  | error
deriving DecidableEq, Repr

/-- `UsageStats` (schemas.py 26-34). -/
structure UsageStats where
  input_tokens : Nat := 0
  output_tokens : Nat := 0
  input_characters : Nat := 0
  output_characters : Nat := 0
  transcription_seconds : ℚ := 0
  tts_characters : Nat := 0
  llm_calls : Nat := 0
  llm_latency_ms : ℚ := 0
deriving DecidableEq, Repr

/-- `CostStats` (schemas.py 37-42). -/
structure CostStats where
  llm_input_cost : ℚ := 0
  llm_output_cost : ℚ := 0
  transcription_cost : ℚ := 0
  tts_cost : ℚ := 0
  total_cost : ℚ := 0
deriving DecidableEq, Repr

/-- `Call` (schemas.py 52-64); the `tool_calls` list is elided (never touched
by the flows modelled here). -/
structure Call where
  id : String
  title : String := "New Call"
  status : CallStatus := .pending
  start_time : String
  end_time : Option String := none
  messages : List DbMessage := []
  summary : Option String := none
  usage_stats : UsageStats := {}
  cost_stats : CostStats := {}
  error_message : Option String := none
  model_name : String := "anthropic/claude-3.5-sonnet"
deriving DecidableEq, Repr

/-- `ModelLatencyStats` (schemas.py 87-92). -/
structure ModelLatencyStats where
  model_name : String
  total_calls : Nat := 0
  total_tokens : Nat := 0
  total_latency_ms : ℚ := 0
  avg_latency_per_100_tokens : ℚ := 0
deriving DecidableEq, Repr

/-- `SystemStats` (schemas.py 95-103); counters are `Int` since the Python
counters can be decremented; the model-latencies dict is an association
list; `last_updated` is elided (a wall-clock stamp). -/
structure SystemStats where
  total_calls : Int := 0
  completed_calls : Int := 0
  pending_calls : Int := 0
  error_calls : Int := 0
  total_usage : UsageStats := {}
  total_costs : CostStats := {}
  model_latencies : List (String × ModelLatencyStats) := []
deriving DecidableEq, Repr

/-- `Settings` fields used by the call flow (schemas.py 74-84). -/
structure AppSettings where
  model_name : String
  temperature : ℚ := 7/10
  price_per_million_input_tokens : ℚ := 3
  price_per_million_output_tokens : ℚ := 15
  price_per_5s_transcription : ℚ := 3/100
  price_per_10k_tts_chars : ℚ := 3/10
  estimated_token_length : Nat := 4
deriving DecidableEq, Repr

/-- The two stores of the `Database` class. -/
structure Db where
  calls : List Call
  stats : SystemStats
deriving DecidableEq, Repr

/-- `Database.get_call` (database.py 104-111): the first stored call with the
given id, if any. -/
def getCall (calls : List Call) (callId : String) : Option Call :=
  calls.find? (fun c => c.id == callId)

/-- `Database.update_call` (database.py 119-128): replace the first stored
call with the same id and return; raise `ValueError` when no call matches. -/
def update_call (calls : List Call) (c : Call) : Except String (List Call) :=
  match calls with
  | [] => .error ("Call " ++ c.id ++ " not found")
  | x :: xs =>
    if x.id == c.id then .ok (c :: xs)
    else (update_call xs c).map (fun r => x :: r)

/-- The field changes of `Database.update_call_status` (database.py 141-148):
set the status, stamp `end_time` on COMPLETED, and record a truthy error
message. -/
def applyStatus (call : Call) (status : CallStatus)
    (errorMessage : Option String) (nowTime : String) : Call :=
  let call := { call with status := status }
  let call :=
    if status == .completed then { call with end_time := some nowTime }
    else call
  if pyTruthyStr errorMessage then { call with error_message := errorMessage }
  else call

/-- `Database.update_call_status` (database.py 130-160): load the call, apply
the status change, store it back, then adjust the
`pending`/`completed`/`error` counters of the stats store. -/
def update_call_status (db : Db) (callId : String) (status : CallStatus)
    (errorMessage : Option String) (nowTime : String) :
    Except String (Db × Call) :=
  match getCall db.calls callId with
  | none => .error ("Call " ++ callId ++ " not found")
  | some call0 =>
    let oldStatus := call0.status
    let call := applyStatus call0 status errorMessage nowTime
    match update_call db.calls call with
    | .error e => .error e
    | .ok calls =>
      let stats := db.stats
      let stats :=
        if oldStatus == .pending then
          { stats with pending_calls := stats.pending_calls - 1 }
        else stats
      let stats :=
        if status == .completed then
          { stats with completed_calls := stats.completed_calls + 1 }
        else if status == .error then
          { stats with error_calls := stats.error_calls + 1 }
        else stats
      .ok ({ calls := calls, stats := stats }, call)

/-- `Database.add_message_to_call` (database.py 162-169). -/
def add_message_to_call (db : Db) (callId : String) (m : DbMessage) :
    Except String Db :=
  match getCall db.calls callId with
  | none => .error ("Call " ++ callId ++ " not found")
  | some call =>
    (update_call db.calls { call with messages := call.messages ++ [m] }).map
      (fun calls => { db with calls := calls })

/-- Field-wise usage fold of `Database.update_stats` (database.py 246-254). -/
def foldUsage (t u : UsageStats) : UsageStats :=
  { input_tokens := t.input_tokens + u.input_tokens,
    output_tokens := t.output_tokens + u.output_tokens,
    input_characters := t.input_characters + u.input_characters,
    output_characters := t.output_characters + u.output_characters,
    transcription_seconds := t.transcription_seconds + u.transcription_seconds,
    tts_characters := t.tts_characters + u.tts_characters,
    llm_calls := t.llm_calls + u.llm_calls,
    llm_latency_ms := t.llm_latency_ms + u.llm_latency_ms }

/-- Field-wise cost fold of `Database.update_stats` (database.py 256-261):
note that `total_cost` is accumulated from the delta, not recomputed. -/
def foldCosts (t c : CostStats) : CostStats :=
  { llm_input_cost := t.llm_input_cost + c.llm_input_cost,
    llm_output_cost := t.llm_output_cost + c.llm_output_cost,
    transcription_cost := t.transcription_cost + c.transcription_cost,
    tts_cost := t.tts_cost + c.tts_cost,
    total_cost := t.total_cost + c.total_cost }

/-- Association-list update backing the `model_latencies` dict. -/
def setModelLatency (ml : List (String × ModelLatencyStats)) (k : String)
    (v : ModelLatencyStats) : List (String × ModelLatencyStats) :=
  if ml.any (fun p => p.1 == k) then
    ml.map (fun p => if p.1 == k then (k, v) else p)
  else ml ++ [(k, v)]

/-- `Database.update_stats` (database.py 234-283): fold the optional usage and
cost deltas into the system-wide aggregates, then update the per-model latency
statistics when `model_name and call_tokens and call_latency_ms` is truthy
(a zero token count or zero latency skips the branch). -/
def update_stats (stats : SystemStats) (usageDelta : Option UsageStats)
    (costDelta : Option CostStats) (modelName : Option String)
    (callTokens : Option Nat) (callLatencyMs : Option ℚ) : SystemStats :=
  let stats :=
    match usageDelta with
    | some u => { stats with total_usage := foldUsage stats.total_usage u }
    | none => stats
  let stats :=
    match costDelta with
    | some c => { stats with total_costs := foldCosts stats.total_costs c }
    | none => stats
  match modelName, callTokens, callLatencyMs with
  | some mn, some ct, some cl =>
    if mn == "" || ct == 0 || cl == 0 then stats
    else
      let ms := ((stats.model_latencies.find? (fun p => p.1 == mn)).map
        (fun p => p.2)).getD { model_name := mn }
      let ms := { ms with
        total_calls := ms.total_calls + 1,
        total_tokens := ms.total_tokens + ct,
        total_latency_ms := ms.total_latency_ms + cl }
      let ms :=
        if 0 < ms.total_tokens then
          { ms with avg_latency_per_100_tokens :=
              ms.total_latency_ms / (ms.total_tokens : ℚ) * 100 }
        else ms
      { stats with model_latencies := setModelLatency stats.model_latencies mn ms }
  | _, _, _ => stats

/-! ## WebSocket call endpoint (backend/routers/chat.py
`websocket_call_endpoint`, lines 83-400) -/

/-- The end-of-call recomputation of `total_cost` (chat.py 369-375). -/
def recomputeTotalCost (call : Call) : Call :=
  { call with cost_stats := { call.cost_stats with total_cost :=
      call.cost_stats.llm_input_cost + call.cost_stats.llm_output_cost +
      call.cost_stats.transcription_cost + call.cost_stats.tts_cost } }

/-- The greeting usage/cost fold (chat.py 151-154, precomputed-greeting
branch): `tts_characters += len(greeting)` and
`tts_cost += (len(greeting) / 10000) * settings.price_per_10k_tts_chars`,
without touching `total_cost`. -/
def greetingStatsFold (call : Call) (greeting : String)
    (pricePer10kTtsChars : ℚ) : Call :=
  { call with
    usage_stats := { call.usage_stats with
      tts_characters := call.usage_stats.tts_characters + greeting.length },
    cost_stats := { call.cost_stats with
      tts_cost := call.cost_stats.tts_cost +
        ((greeting.length : ℚ) / 10000) * pricePer10kTtsChars } }

/-- Tuple unpacking `a, b, c = t` of a Python tuple of arbitrary arity
(chat.py line 258): a `ValueError` unless the tuple has exactly three
elements. -/
def unpack3 (t : List PyVal) : Except PyError (PyVal × PyVal × PyVal) :=
  match t with
  | [a, b, c] => .ok (a, b, c)
  | _ =>
    if t.length < 3 then
      .error (.valueError "not enough values to unpack (expected 3)")
    else
      .error (.valueError "too many values to unpack (expected 3)")

/-- Whether a value is Python `None`. -/
def pvIsNone : PyVal → Bool
  | .vnone => true
  | _ => false

/-- The chunk-consumption loop of the endpoint (chat.py 254-268): for each
yielded tuple run `chunk, first_latency, total_latency = chunk_data`, keep the
latest non-`None` latencies, and accumulate truthy chunks into
`response_text`.  The loop re-raises the `ValueError` of a failed unpack. -/
def routerConsumeChunks (chunks : List (List PyVal))
    (acc : String × Option PyVal × Option PyVal) :
    Except PyError (String × Option PyVal × Option PyVal) :=
  match chunks with
  | [] => .ok acc
  | ch :: rest =>
    match unpack3 ch with
    | .error e => .error e
    | .ok (c, f, t) =>
      let acc1 := if pvIsNone f then acc.2.1 else some f
      let acc2 := if pvIsNone t then acc.2.2 else some t
      let acc0 :=
        match c with
        | .vstr s => if s == "" then acc.1 else acc.1 ++ s
        | _ => acc.1
      routerConsumeChunks rest (acc0, acc1, acc2)

/-- The per-turn token/cost accounting of the endpoint (chat.py 282-300),
which runs after the response loop: character counts, an `llm_calls`
increment, the latency accumulation when `total_latency_ms` is truthy, and
the character-based token estimates
`len(text) // settings.estimated_token_length` priced per million tokens.
The exact usage dict yielded by the agent is not an input: the endpoint never
reads it. -/
def routerTurnAccounting (settings : AppSettings) (call : Call)
    (transcription responseText : String) (totalLatencyMs : Option ℚ) : Call :=
  let u := call.usage_stats
  let k := call.cost_stats
  let u := { u with
    output_characters := u.output_characters + responseText.length,
    llm_calls := u.llm_calls + 1 }
  let u :=
    match totalLatencyMs with
    | some q => if q == 0 then u else { u with llm_latency_ms := u.llm_latency_ms + q }
    | none => u
  let estimatedOutputTokens := responseText.length / settings.estimated_token_length
  let u := { u with output_tokens := u.output_tokens + estimatedOutputTokens }
  let k := { k with llm_output_cost := k.llm_output_cost +
      ((estimatedOutputTokens : ℚ) / 1000000) * settings.price_per_million_output_tokens }
  let estimatedInputTokens := transcription.length / settings.estimated_token_length
  let u := { u with input_tokens := u.input_tokens + estimatedInputTokens }
  let k := { k with llm_input_cost := k.llm_input_cost +
      ((estimatedInputTokens : ℚ) / 1000000) * settings.price_per_million_input_tokens }
  { call with usage_stats := u, cost_stats := k }

/-- Outcome of processing one inbound audio message (the body of the inner
`try` at chat.py 196-323, abstracted): it completes, or it raises with the
socket still alive (the error report at line 327 succeeds and the loop
continues), or it raises with the socket dead (the error report raises too,
the generic handler at line 341 also fails to send, sets
`websocket_disconnected` and breaks). -/
inductive AudioOutcome where
  | ok
  | raiseSendOk
  | raiseSendDead
deriving DecidableEq, Repr

/-- One iteration of the receive loop (chat.py 187-351): an audio message with
its processing outcome, a client `end_call`, a `WebSocketDisconnect` raised by
the receive, or a generic exception whose error report either succeeds or
finds the socket dead. -/
inductive LoopEvent where
  | audio (o : AudioOutcome)
  | endCall
  | disconnect
  | otherExnSendOk
  | otherExnSendDead
deriving DecidableEq, Repr

/-- How the receive loop ends: still running (script exhausted), a clean
`end_call` break, or a break with `websocket_disconnected = True`. -/
inductive LoopExit where
  | running
  | clean
  | disc
deriving DecidableEq, Repr

/-- The receive loop of the endpoint reduced to its exit classification. -/
def runLoop : List LoopEvent → LoopExit
  | [] => .running
  | e :: rest =>
    match e with
    | .audio .ok => runLoop rest
    | .audio .raiseSendOk => runLoop rest
    | .audio .raiseSendDead => .disc
    | .endCall => .clean
    | .disconnect => .disc
    | .otherExnSendOk => runLoop rest
    | .otherExnSendDead => .disc

/-- How the pre-loop phase (agent construction, greeting delivery,
chat.py 109-186) ends: normally, with a `WebSocketDisconnect` escaping to the
outer handler at line 386, or with some other exception escaping to the
handler at line 391. -/
inductive GreetingOutcome where
  | ok
  | disconnect
  | raiseOther (msg : String)
deriving DecidableEq, Repr

/-- `websocket_call_endpoint` (chat.py 83-400) as a function of the database
stores, the settings, the delivered greeting text, and a script of transport
events.  Construction of the agent is taken to succeed (it requires the
spec-modelled gathered-data tools; with the repository tools it raises, see
`agentInit`).  Modelling choices: the greeting write of the precomputed
branch lands before a greeting-phase disconnect is detected (the disconnect
happens at a send); the best-effort summary/title generation after the loop
is elided (its failure is swallowed at line 364 and it never touches the
status); `update_stats` receives the totals of the stored call as at
lines 378-384. -/
def websocket_call_endpoint (db0 : Db) (settings : AppSettings)
    (greeting : String) (callId nowTime : String) (g : GreetingOutcome)
    (events : List LoopEvent) : Db :=
  match getCall db0.calls callId with
  | none => db0
  | some call =>
    let call := { call with model_name := settings.model_name }
    let db1 :=
      match update_call db0.calls call with
      | .ok cs => { db0 with calls := cs }
      | .error _ => db0
    let db2 :=
      match add_message_to_call db1 callId
        ⟨"assistant", greeting, nowTime⟩ with
      | .ok d => d
      | .error _ => db1
    match g with
    | .disconnect => db2
    | .raiseOther m =>
      match update_call_status db2 callId .error (some m) nowTime with
      | .ok (d, _) => d
      | .error _ => db2
    | .ok =>
      let db3 :=
        match getCall db2.calls callId with
        | none => db2
        | some c =>
          match update_call db2.calls
            (greetingStatsFold c greeting settings.price_per_10k_tts_chars) with
          | .ok cs => { db2 with calls := cs }
          | .error _ => db2
      match runLoop events with
      | .running => db3
      | .clean | .disc =>
        match update_call_status db3 callId .completed none nowTime with
        | .error _ => db3
        | .ok (db4, _) =>
          match getCall db4.calls callId with
          | none => db4
          | some c =>
            let c := recomputeTotalCost c
            match update_call db4.calls c with
            | .error _ => db4
            | .ok calls =>
              let db5 : Db := { calls := calls, stats := db4.stats }
              { db5 with stats := (update_stats db5.stats
                  (some c.usage_stats) (some c.cost_stats)
                  (some c.model_name)
                  (some (c.usage_stats.input_tokens + c.usage_stats.output_tokens))
                  (some c.usage_stats.llm_latency_ms)) }

/-- Status of the stored call with the given id. -/
def statusOf (db : Db) (callId : String) : Option CallStatus :=
  (getCall db.calls callId).map (fun c => c.status)

/-! ## Specification predicates and concrete fixtures -/

set_option maxRecDepth 100000

/-- The transcript invariant claimed by the spec: at most one SYSTEM message,
and only at index 0 — equivalently, no SYSTEM role after the head. -/
def systemOk (h : List Msg) : Bool :=
  (h.drop 1).all (fun m => !(m.role == .system))

/-- A tool call saving one gathered order id, as issued by the model. -/
def tcOrder : ToolCallReq :=
  ⟨"function", "save_gathered_data", [("order_id", "AB12CD")]⟩

/-- A small agent state after the greeting: system prompt plus one assistant
greeting, nothing summarised yet, the default memory constants. -/
def stBase : AgentState :=
  { history := [⟨.system, "sp"⟩, ⟨.assistant, "Hello! How can I help you?"⟩],
    summary := none, lastSummaryPoint := 0, summaryThreshold := 20,
    keepRecent := 4, gathered := [], toolCallsLog := [], infoToGather := [] }

/-- Collaborator for the C3 scenario: the primary call saves the order id with
no text, the follow-up call raises, the fallback stream succeeds. -/
def llmC3 : LLMBehavior :=
  { summaryComplete := fun _ => .error "e",
    primaryChat := fun _ => .ok ⟨none, [tcOrder], some ⟨100, 5, 105⟩⟩,
    followupChat := fun _ => .error "APIConnectionError",
    streamChat := fun _ => .ok ["I saved your order id."] }

/-- Collaborator for the C9 scenario: tool call with empty text, then a
successful follow-up. -/
def llmC9 : LLMBehavior :=
  { summaryComplete := fun _ => .error "e",
    primaryChat := fun _ => .ok ⟨none, [tcOrder], some ⟨100, 5, 105⟩⟩,
    followupChat := fun _ => .ok ⟨some "Thanks! What is your name?", [], some ⟨50, 10, 60⟩⟩,
    streamChat := fun _ => .error "e" }

/-- Collaborator whose follow-up always returns (used by the C9 witness). -/
def llmW9 : LLMBehavior :=
  { summaryComplete := fun _ => .error "e",
    primaryChat := fun _ => .ok ⟨some "Sure, what is the order number?", [], none⟩,
    followupChat := fun _ => .ok ⟨some "ok", [], none⟩,
    streamChat := fun _ => .error "e" }

/-- Collaborator for the C4 scenario: a plain text response with exact usage. -/
def llmC4 : LLMBehavior :=
  { summaryComplete := fun _ => .error "e",
    primaryChat := fun _ =>
      .ok ⟨some "Hello! Could you give me your order number?", [], some ⟨12, 8, 20⟩⟩,
    followupChat := fun _ => .error "e",
    streamChat := fun _ => .error "e" }

/-- Collaborator whose `acomplete` raises on every prompt (failed
summarization). -/
def llmFailingSummary : LLMBehavior :=
  { summaryComplete := fun _ => .error "APIError",
    primaryChat := fun _ => .error "e",
    followupChat := fun _ => .error "e",
    streamChat := fun _ => .error "e" }

/-- A state that has just reached the summary threshold: 20 non-summarised
messages, an existing summary, boundary still at 0. -/
def stC2 : AgentState :=
  { history := ⟨.system, "sp"⟩ :: List.replicate 20 ⟨.user, "m"⟩,
    summary := some "prior summary", lastSummaryPoint := 0,
    summaryThreshold := 20, keepRecent := 4,
    gathered := [], toolCallsLog := [], infoToGather := [] }

/-- A state with an established summary boundary and six stored messages. -/
def stW7 : AgentState :=
  { history := [⟨.system, "sp"⟩, ⟨.user, "a"⟩, ⟨.assistant, "b"⟩,
      ⟨.user, "c"⟩, ⟨.assistant, "d"⟩],
    summary := some "sum", lastSummaryPoint := 2, summaryThreshold := 20,
    keepRecent := 4, gathered := [], toolCallsLog := [], infoToGather := [] }

/-- The condensed context of `stW7`. -/
def ctxW7 : List Msg :=
  [⟨.system, "sp"⟩, ⟨.system, "[Previous conversation summary: sum]"⟩,
   ⟨.user, "a"⟩, ⟨.assistant, "b"⟩, ⟨.user, "c"⟩, ⟨.assistant, "d"⟩]

/-- A call already in the terminal COMPLETED state. -/
def completedCallA : Call :=
  { id := "c1", status := .completed, start_time := "t0", title := "Old Title" }

/-- The same call with a mutated field. -/
def completedCallA2 : Call :=
  { completedCallA with title := "Changed Title" }

/-- A freshly created call (all aggregates zero). -/
def freshCallC8 : Call :=
  { id := "c8", start_time := "t0" }

/-- A cost delta satisfying the total-equals-sum invariant. -/
def cdW8 : CostStats :=
  { llm_input_cost := 1/10, llm_output_cost := 1/5,
    transcription_cost := 3/10, tts_cost := 2/5, total_cost := 1 }

/-- A pending call as created by `Database.create_call`. -/
def pendingCallC6 : Call :=
  { id := "c6", start_time := "t0" }

/-- A database store holding just that pending call. -/
def dbC6 : Db :=
  { calls := [pendingCallC6], stats := {} }

/-- Settings with the default prices, as stored by `_initialize_files`. -/
def settingsW : AppSettings :=
  { model_name := "openai/gpt-oss-120b" }

/-- Environment providing both provider keys. -/
def envW : String → Option String :=
  fun _ => some "test-key"

/-! ## Helper lemmas -/

/-- A user or assistant append preserves the transcript invariant. -/
theorem systemOk_append (h : List Msg) (m : Msg) (hh : systemOk h = true)
    (hm : (m.role == .system) = false) : systemOk (h ++ [m]) = true := by
  cases h with
  | nil => simp [systemOk, hm]
  | cons a t =>
    simp only [systemOk, List.cons_append, List.drop_succ_cons, List.drop_zero,
      List.all_append, Bool.and_eq_true, List.all_cons, List.all_nil] at *
    simp [hh, hm]

/-- Regenerating the system prompt preserves the transcript invariant. -/
theorem systemOk_update_system_prompt (now : String) (st : AgentState)
    (hh : systemOk st.history = true) :
    systemOk (update_system_prompt now st).history = true := by
  unfold update_system_prompt
  cases hc : st.history with
  | nil => simp [systemOk]
  | cons a t =>
    rw [hc] at hh
    simp only [systemOk, List.drop_succ_cons, List.drop_zero] at hh
    by_cases hr : (a.role == Role.system) = true
    · simp [hr, systemOk, hh]
    · simp only [hr]
      simp only [Bool.false_eq_true, if_false, systemOk, List.drop_succ_cons,
        List.drop_zero, List.all_cons, Bool.and_eq_true]
      constructor
      · simp at hr; simp [hr]
      · exact hh

/-- `_update_memory` never mutates the conversation history. -/
theorem update_memory_history (llm : LLMBehavior) (st : AgentState) :
    ((update_memory llm st).1).history = st.history := by
  simp only [update_memory]
  split_ifs <;> rfl

/-- The tool-execution loop never mutates the conversation history. -/
theorem execToolCalls_history (tcs : List ToolCallReq) :
    ∀ st : AgentState, ((execToolCalls st tcs).1).history = st.history := by
  induction tcs with
  | nil => intro st; rfl
  | cons tc rest ih =>
    intro st
    unfold execToolCalls
    by_cases h : (tc.typ == "function" && tc.name == "save_gathered_data") = true
    · simp only [h, if_true]
      exact ih _
    · simp only [h]
      simp only [Bool.false_eq_true, if_false]
      exact ih st

/-- The condensed history only fails on an empty conversation history. -/
theorem get_condensed_history_error_imp (st : AgentState) (e : PyError)
    (h : get_condensed_history st = .error e) : st.history = [] := by
  cases hc : st.history with
  | nil => rfl
  | cons a t => simp [get_condensed_history, hc] at h

/-- The error handler appends an assistant turn, preserving the invariant. -/
theorem systemOk_mkErrorTurn (st : AgentState) (snaps : List (List Msg))
    (py : List (List PyVal)) (hh : systemOk st.history = true) :
    systemOk (mkErrorTurn st snaps py).state.history = true :=
  systemOk_append _ _ hh rfl

/-- The emit step appends an assistant turn, preserving the invariant. -/
theorem systemOk_emitEnd (st : AgentState) (snaps : List (List Msg))
    (py : List (List PyVal)) (s : String) (tw : ℚ) (u : Option ChatUsage)
    (hh : systemOk st.history = true) :
    systemOk (emitEnd st snaps py s tw u).state.history = true :=
  systemOk_append _ _ hh rfl

/-- Every streamed chunk tuple has arity 4. -/
theorem streamYields_arity (ds : List String) (fw : ℚ) :
    (streamYields ds fw).all (fun y => y.length == 4) = true := by
  unfold streamYields
  cases h : ds.filter (fun d => !(d == "")) with
  | nil => rfl
  | cons d rest => simp [List.all_map]

/-- The error handler only yields arity-4 tuples. -/
theorem mkErrorTurn_arity (st : AgentState) (snaps : List (List Msg))
    (py : List (List PyVal)) (hp : py.all (fun y => y.length == 4) = true) :
    (mkErrorTurn st snaps py).yields.all (fun y => y.length == 4) = true := by
  simp [mkErrorTurn, List.all_append, hp]

/-- The emit step only yields arity-4 tuples. -/
theorem emitEnd_arity (st : AgentState) (snaps : List (List Msg))
    (py : List (List PyVal)) (s : String) (tw : ℚ) (u : Option ChatUsage)
    (hp : py.all (fun y => y.length == 4) = true) :
    (emitEnd st snaps py s tw u).yields.all (fun y => y.length == 4) = true := by
  simp only [emitEnd]
  split_ifs <;> simp [List.all_append, hp]

/-- Every tuple yielded by `process_message` has arity 4, matching the
generator docstring (agent.py 176-180). -/
theorem process_message_yield_arity (llm : LLMBehavior) (now : String)
    (fw tw : ℚ) (st : AgentState) (um : String) :
    (process_message llm now fw tw st um).yields.all (fun y => y.length == 4) = true := by
  simp only [process_message]
  split
  · exact mkErrorTurn_arity _ _ _ rfl
  · split
    · split
      · exact mkErrorTurn_arity _ _ _ rfl
      · apply mkErrorTurn_arity
        split_ifs <;> simp [List.all_append, streamYields_arity]
    · split
      · split
        · exact mkErrorTurn_arity _ _ _ rfl
        · split
          · split
            · exact mkErrorTurn_arity _ _ _ rfl
            · exact emitEnd_arity _ _ _ _ _ _ (streamYields_arity _ _)
          · exact emitEnd_arity _ _ _ _ _ _ rfl
      · exact emitEnd_arity _ _ _ _ _ _ rfl

/-- The Python slice `xs[-k:]` has at most `k` elements when `k > 0`. -/
theorem pyLastSlice_length_le (k : Nat) (hk : 0 < k) (xs : List Msg) :
    (pyLastSlice k xs).length ≤ k := by
  unfold pyLastSlice
  have h : (k == 0) = false := by simp; omega
  rw [h]
  simp only [Bool.false_eq_true, if_false, List.length_drop]
  omega

/-- A call found by id has that id. -/
theorem getCall_eq_id (calls : List Call) (callId : String) (c : Call)
    (h : getCall calls callId = some c) : c.id = callId := by
  unfold getCall at h
  have := List.find?_some h
  simpa using this

/-- `update_call` succeeds on a stored id and the updated call is then the one
found under that id. -/
theorem update_call_found (calls : List Call) (callId : String) (c0 c : Call)
    (h : getCall calls callId = some c0) (hid : c.id = callId) :
    ∃ calls2, update_call calls c = .ok calls2 ∧ getCall calls2 callId = some c := by
  induction calls with
  | nil => simp [getCall] at h
  | cons x xs ih =>
    by_cases hx : (x.id == callId) = true
    · refine ⟨c :: xs, ?_, ?_⟩
      · unfold update_call
        have hxc : (x.id == c.id) = true := by rw [hid]; exact hx
        rw [if_pos hxc]
      · simp [getCall, List.find?_cons, hid]
    · have h' : getCall xs callId = some c0 := by
        unfold getCall at h ⊢
        rw [List.find?_cons] at h
        simp only [hx] at h
        exact h
      obtain ⟨calls2, hu, hg⟩ := ih h'
      refine ⟨x :: calls2, ?_, ?_⟩
      · unfold update_call
        have hxc : (x.id == c.id) = false := by rw [hid]; simpa using hx
        rw [hxc]
        simp only [Bool.false_eq_true, if_false, hu, Except.map]
      · unfold getCall at hg ⊢
        rw [List.find?_cons]
        simp only [hx]
        exact hg

/-- The status change preserves the call id. -/
theorem applyStatus_id (call : Call) (status : CallStatus)
    (em : Option String) (nt : String) :
    (applyStatus call status em nt).id = call.id := by
  unfold applyStatus
  split_ifs <;> rfl

/-- The status change installs the requested status. -/
theorem applyStatus_status (call : Call) (status : CallStatus)
    (em : Option String) (nt : String) :
    (applyStatus call status em nt).status = status := by
  unfold applyStatus
  split_ifs <;> rfl

/-- `update_call_status` succeeds on a stored id and stores the changed call. -/
theorem update_call_status_found (db : Db) (callId : String) (c0 : Call)
    (status : CallStatus) (em : Option String) (nt : String)
    (h : getCall db.calls callId = some c0) :
    ∃ db2, update_call_status db callId status em nt =
        .ok (db2, applyStatus c0 status em nt) ∧
      getCall db2.calls callId = some (applyStatus c0 status em nt) := by
  have hid := getCall_eq_id _ _ _ h
  have hid3 : (applyStatus c0 status em nt).id = callId := by
    rw [applyStatus_id]; exact hid
  obtain ⟨calls2, hu, hg⟩ :=
    update_call_found db.calls callId c0 (applyStatus c0 status em nt) h hid3
  simp only [update_call_status, h, hu]
  exact ⟨_, rfl, hg⟩

/-! ## Claim theorems -/

/-- C1: for every model name, temperature and information-to-gather list (in
an environment providing the selected provider API key), constructing a
`CustomerSupportAgent` raises `AttributeError` before any conversation can
start: `__init__` invokes `_update_system_prompt`, which calls
`self.tools.get_gathered_information()`, but `CustomerSupportTools` defines
no such method — nor the `save_gathered_data` method invoked on tool calls —
so every websocket session's agent setup fails at construction. -/
theorem C1_agent_construction_raises_attribute_error
    (env : String → Option String) (now : String) (cfg : AgentConfig)
    (hkey : pyTruthyStr (env (requiredApiKeyName cfg.model)) = true) :
    agentInit env now cfg = .error (.attributeError "get_gathered_information") ∧
    toolsHasMethod "get_gathered_information" = false ∧
    toolsHasMethod "save_gathered_data" = false := by
  refine ⟨?_, by decide, by decide⟩
  simp [agentInit, hkey, toolsHasMethod, customerSupportToolsMethods]

/-- Witness for C1 at a concrete environment and configuration. -/
theorem C1_agent_construction_raises_attribute_error_witness :
    pyTruthyStr (envW (requiredApiKeyName "openai/gpt-oss-120b")) = true ∧
    agentInit envW "now" ⟨"openai/gpt-oss-120b", 7/10, []⟩ =
      .error (.attributeError "get_gathered_information") :=
  ⟨by decide, (C1_agent_construction_raises_attribute_error envW "now"
    ⟨"openai/gpt-oss-120b", 7/10, []⟩ (by decide)).1⟩

/-- C2 (code bug): with a failing summarization collaborator, on a state at
the summary threshold, `_update_memory` still enters the summarization branch
and advances `last_summary_point` from 0 to 16 — the exception is swallowed
inside `_generate_conversation_summary`, which returns the previous summary —
while the claim and the spec require the boundary not to advance on failure.
The previous summary text is retained, but the sixteen messages between the
old and new boundary are dropped from all future condensed contexts without
ever having been folded into a summary. -/
theorem C2_boundary_advances_despite_summary_failure :
    (update_memory llmFailingSummary stC2).2 = true ∧
    (update_memory llmFailingSummary stC2).1.lastSummaryPoint = 16 ∧
    stC2.lastSummaryPoint = 0 ∧
    (update_memory llmFailingSummary stC2).1.summary = some "prior summary" := by
  decide

/-- C3 (code bug): when the primary call returns a tool invocation with empty
text and the follow-up call raises, control jumps to the streaming fallback
and the pop that removes the transient system note never runs: the turn ends
with the note still in the conversation history (at index 3 in this run), so
it persists in the transcript — the claim requires removal on every outcome
of the follow-up call. -/
theorem C3_transient_note_persists_after_followup_exception :
    ((process_message llmC3 "now" 5 10 stBase "My order AB12CD is broken").state.history.map
        (fun m => m.role) =
      [.system, .assistant, .user, .system, .assistant]) ∧
    ((process_message llmC3 "now" 5 10 stBase "My order AB12CD is broken").state.history.get? 3 =
      some ⟨.system, toolInfoMessage [tcOrder]⟩) := by
  decide

/-- C4 (code bug): the agent yields 4-tuples (text, first-chunk latency,
total latency, usage) on every path — as its own docstring states — but the
endpoint unpacks each yielded tuple into three variables, so consuming any
turn raises `ValueError` before any token accounting runs.  The exact usage
counts returned by the collaborator are therefore never consumed; the
accounting that follows (`routerTurnAccounting`) has no usage input and
applies the character-based estimate unconditionally. -/
theorem C4_router_unpacks_three_of_four :
    (routerConsumeChunks (process_message llmC4 "now" 5 10 stBase "Hi").yields
        ("", none, none) =
      .error (.valueError "too many values to unpack (expected 3)")) ∧
    (∀ (llm : LLMBehavior) (now : String) (fw tw : ℚ) (st : AgentState)
        (um : String),
      (process_message llm now fw tw st um).yields.all
        (fun y => y.length == 4) = true) :=
  ⟨by decide, process_message_yield_arity⟩

/-- C5 counterexample: a session already in the terminal COMPLETED state
accepts further mutation — `update_call` applied to a field change returns ok
instead of signalling a logic error, and `update_call_status` happily
re-transitions the terminal call. -/
theorem C5_terminal_mutation_not_rejected :
    completedCallA.status = .completed ∧
    update_call [completedCallA] completedCallA2 = .ok [completedCallA2] ∧
    (update_call_status ({ calls := [completedCallA], stats := {} } : Db) "c1"
      .completed none "t9").isOk = true := by
  decide

/-- C5 as amended: the persistence layer performs no terminal-state check —
an update of a stored call silently succeeds whenever a call with that id
exists, whatever its lifecycle status; the only signalled failure is an
unknown call id. -/
theorem C5_update_ignores_terminal_status (calls : List Call) (c : Call)
    (hid : (calls.any (fun x => x.id == c.id)) = true) :
    (update_call calls c).isOk = true := by
  induction calls with
  | nil => simp at hid
  | cons x xs ih =>
    rw [update_call]
    by_cases h : (x.id == c.id) = true
    · simp [h, Except.isOk, Except.toBool]
    · simp only [List.any_cons, Bool.or_eq_true] at hid
      rcases hid with hid | hid
      · exact absurd hid h
      · have hx := ih hid
        cases hrec : update_call xs c with
        | ok r => simp [h, hrec, Except.map, Except.isOk, Except.toBool]
        | error e =>
          rw [hrec] at hx
          simp [Except.isOk, Except.toBool] at hx

/-- Witness for the amended C5 at a concrete terminal call. -/
theorem C5_update_ignores_terminal_status_witness :
    ([completedCallA].any (fun x => x.id == completedCallA2.id)) = true ∧
    (update_call [completedCallA] completedCallA2).isOk = true :=
  ⟨by decide, C5_update_ignores_terminal_status _ _ (by decide)⟩

/-- C6 counterexample: a transport disconnect during the greeting phase
escapes to the outer disconnect handler, which sets the flag and assigns no
status at all — the session stays PENDING forever instead of reaching the
claimed terminal COMPLETED state. -/
theorem C6_greeting_disconnect_leaves_pending :
    statusOf (websocket_call_endpoint dbC6 settingsW "Hello!" "c6" "t1"
      .disconnect []) "c6" = some .pending ∧
    some CallStatus.pending ≠ some CallStatus.completed := by
  refine ⟨by decide, by decide⟩

/-- C6 as amended: a remote disconnect never produces the ERROR status, and a
disconnect detected inside the message loop (including mid-response-stream,
where the chunk send and the error report both fail) ends the session as
COMPLETED; only a disconnect before the loop (during greeting delivery)
leaves the session PENDING with no terminal status. -/
theorem C6_disconnect_never_error (db0 : Db) (settings : AppSettings)
    (greeting : String) (callId nowTime : String) (g : GreetingOutcome)
    (events : List LoopEvent) (c0 : Call)
    (hc : getCall db0.calls callId = some c0)
    (hp : c0.status = .pending)
    (hdisc : g = .disconnect ∨ (g = .ok ∧ runLoop events = .disc)) :
    statusOf (websocket_call_endpoint db0 settings greeting callId nowTime g events)
        callId ≠ some .error ∧
    (g = .ok → runLoop events = .disc →
      statusOf (websocket_call_endpoint db0 settings greeting callId nowTime g events)
        callId = some .completed) := by
  have hid0 := getCall_eq_id _ _ _ hc
  obtain ⟨cs1, hu1, hg1⟩ := update_call_found db0.calls callId c0
    { c0 with model_name := settings.model_name } hc hid0
  obtain ⟨cs2, hu2, hg2⟩ := update_call_found cs1 callId
    { c0 with model_name := settings.model_name }
    { c0 with
      model_name := settings.model_name,
      messages := c0.messages ++ [⟨"assistant", greeting, nowTime⟩] }
    hg1 hid0
  rcases hdisc with hg | ⟨hgok, hrun⟩
  · subst hg
    simp only [websocket_call_endpoint, hc, hu1, add_message_to_call, hg1, hu2,
      Except.map, statusOf, hg2, Option.map_some]
    constructor
    · rw [hp]; simp
    · intro hcontra; exact absurd hcontra (by simp)
  · subst hgok
    obtain ⟨cs3, hu3, hg3⟩ := update_call_found cs2 callId
      { c0 with
        model_name := settings.model_name,
        messages := c0.messages ++ [⟨"assistant", greeting, nowTime⟩] }
      (greetingStatsFold
        { c0 with
          model_name := settings.model_name,
          messages := c0.messages ++ [⟨"assistant", greeting, nowTime⟩] }
        greeting settings.price_per_10k_tts_chars)
      hg2 hid0
    obtain ⟨db4, hucs, hg4⟩ := update_call_status_found
      ⟨cs3, ({ db0 with calls := cs2 } : Db).stats⟩ callId
      (greetingStatsFold
        { c0 with
          model_name := settings.model_name,
          messages := c0.messages ++ [⟨"assistant", greeting, nowTime⟩] }
        greeting settings.price_per_10k_tts_chars)
      .completed none nowTime hg3
    obtain ⟨cs5, hu5, hg5⟩ := update_call_found db4.calls callId _
      (recomputeTotalCost (applyStatus
        (greetingStatsFold
          { c0 with
            model_name := settings.model_name,
            messages := c0.messages ++ [⟨"assistant", greeting, nowTime⟩] }
          greeting settings.price_per_10k_tts_chars)
        .completed none nowTime))
      hg4 (by rw [show ∀ c, (recomputeTotalCost c).id = c.id from fun _ => rfl,
            applyStatus_id]; exact hid0)
    simp only [websocket_call_endpoint, hc, hu1, add_message_to_call, hg1, hu2,
      Except.map, hg2, hu3, hrun, hucs, hg4, hu5, statusOf, hg5, Option.map_some]
    constructor
    · simp [recomputeTotalCost, applyStatus_status]
    · intro _ _
      simp [recomputeTotalCost, applyStatus_status]

/-- Witness for the amended C6: an in-loop disconnect ends COMPLETED. -/
theorem C6_disconnect_never_error_witness :
    getCall dbC6.calls "c6" = some pendingCallC6 ∧
    pendingCallC6.status = .pending ∧
    statusOf (websocket_call_endpoint dbC6 settingsW "Hello!" "c6" "t1"
      .ok [.disconnect]) "c6" = some .completed ∧
    statusOf (websocket_call_endpoint dbC6 settingsW "Hello!" "c6" "t1"
      .ok [.disconnect]) "c6" ≠ some .error :=
  ⟨by decide, by decide,
   (C6_disconnect_never_error dbC6 settingsW "Hello!" "c6" "t1" .ok
      [.disconnect] pendingCallC6 (by decide) (by decide)
      (Or.inr ⟨rfl, rfl⟩)).2 rfl rfl,
   (C6_disconnect_never_error dbC6 settingsW "Hello!" "c6" "t1" .ok
      [.disconnect] pendingCallC6 (by decide) (by decide)
      (Or.inr ⟨rfl, rfl⟩)).1⟩

/-- C7: once a summary boundary exists (and with the positive keep-recent
constant of the code), the condensed context built by
`_get_condensed_history` has at most `2 + keep_recent_messages` messages
(system directive + optional summary turn + last kept turns), whatever the
transcript length. -/
theorem C7_condensed_context_bounded (st : AgentState) (ctx : List Msg)
    (hk : 0 < st.keepRecent) (hb : 0 < st.lastSummaryPoint)
    (hc : get_condensed_history st = .ok ctx) :
    ctx.length ≤ 2 + st.keepRecent := by
  rcases hhist : st.history with _ | ⟨h0, rest⟩
  · simp only [get_condensed_history, hhist] at hc
    exact Except.noConfusion hc
  · simp only [get_condensed_history, hhist, Except.ok.injEq] at hc
    subst hc
    have hs := pyLastSlice_length_le st.keepRecent hk rest
    split_ifs <;> simp [List.length_append] <;> omega

/-- Witness for C7 at a concrete state with an established boundary. -/
theorem C7_condensed_context_bounded_witness :
    0 < stW7.keepRecent ∧ 0 < stW7.lastSummaryPoint ∧
    get_condensed_history stW7 = .ok ctxW7 ∧
    ctxW7.length ≤ 2 + stW7.keepRecent :=
  ⟨by decide, by decide, by decide,
   C7_condensed_context_bounded stW7 ctxW7 (by decide) (by decide) (by decide)⟩

/-- C8 counterexample: mid-session folds do not maintain `total_cost`: after
the greeting TTS fold on a fresh call the four components sum to a positive
value while `total_cost` is still 0, so the claimed invariant fails after
that fold. -/
theorem C8_mid_session_fold_breaks_total :
    ¬((greetingStatsFold freshCallC8 "Hi there!" (3/10)).cost_stats.total_cost =
      (greetingStatsFold freshCallC8 "Hi there!" (3/10)).cost_stats.llm_input_cost +
      (greetingStatsFold freshCallC8 "Hi there!" (3/10)).cost_stats.llm_output_cost +
      (greetingStatsFold freshCallC8 "Hi there!" (3/10)).cost_stats.transcription_cost +
      (greetingStatsFold freshCallC8 "Hi there!" (3/10)).cost_stats.tts_cost) := by
  have hlen : ("Hi there!".length : ℕ) = 9 := rfl
  norm_num [greetingStatsFold, freshCallC8, hlen]

/-- C8 as amended: `total_cost` equals the sum of the four components after
the end-of-session recomputation, and the system-wide fold preserves the
invariant whenever the folded delta satisfies it (the fold accumulates
`total_cost` from the delta rather than recomputing it); during a session,
per-turn component folds leave `total_cost` stale until the final
recomputation. -/
theorem C8_total_recomputed_at_end_and_preserved_by_fold
    (stats : SystemStats) (ud : Option UsageStats) (cd : CostStats)
    (mn : Option String) (ct : Option Nat) (cl : Option ℚ) (c : Call)
    (hd : cd.total_cost = cd.llm_input_cost + cd.llm_output_cost +
      cd.transcription_cost + cd.tts_cost)
    (hs : stats.total_costs.total_cost = stats.total_costs.llm_input_cost +
      stats.total_costs.llm_output_cost + stats.total_costs.transcription_cost +
      stats.total_costs.tts_cost) :
    ((update_stats stats ud (some cd) mn ct cl).total_costs.total_cost =
      (update_stats stats ud (some cd) mn ct cl).total_costs.llm_input_cost +
      (update_stats stats ud (some cd) mn ct cl).total_costs.llm_output_cost +
      (update_stats stats ud (some cd) mn ct cl).total_costs.transcription_cost +
      (update_stats stats ud (some cd) mn ct cl).total_costs.tts_cost) ∧
    ((recomputeTotalCost c).cost_stats.total_cost =
      (recomputeTotalCost c).cost_stats.llm_input_cost +
      (recomputeTotalCost c).cost_stats.llm_output_cost +
      (recomputeTotalCost c).cost_stats.transcription_cost +
      (recomputeTotalCost c).cost_stats.tts_cost) := by
  constructor
  · simp only [update_stats]
    cases ud <;> cases mn <;> cases ct <;> cases cl <;>
      first
        | (simp [foldCosts]; linarith)
        | (split_ifs <;> simp [foldCosts] <;> linarith)
        | (simp [foldCosts] <;> split_ifs <;> simp <;> linarith)
  · simp [recomputeTotalCost]

/-- Witness for the amended C8 at a concrete delta and fresh aggregates. -/
theorem C8_total_recomputed_witness :
    (cdW8.total_cost = cdW8.llm_input_cost + cdW8.llm_output_cost +
      cdW8.transcription_cost + cdW8.tts_cost) ∧
    ((update_stats ({} : SystemStats) none (some cdW8) none none none).total_costs.total_cost =
      (update_stats ({} : SystemStats) none (some cdW8) none none none).total_costs.llm_input_cost +
      (update_stats ({} : SystemStats) none (some cdW8) none none none).total_costs.llm_output_cost +
      (update_stats ({} : SystemStats) none (some cdW8) none none none).total_costs.transcription_cost +
      (update_stats ({} : SystemStats) none (some cdW8) none none none).total_costs.tts_cost) ∧
    ((recomputeTotalCost freshCallC8).cost_stats.total_cost =
      (recomputeTotalCost freshCallC8).cost_stats.llm_input_cost +
      (recomputeTotalCost freshCallC8).cost_stats.llm_output_cost +
      (recomputeTotalCost freshCallC8).cost_stats.transcription_cost +
      (recomputeTotalCost freshCallC8).cost_stats.tts_cost) :=
  ⟨by norm_num [cdW8],
   (C8_total_recomputed_at_end_and_preserved_by_fold ({} : SystemStats) none
     cdW8 none none none freshCallC8 (by norm_num [cdW8]) (by norm_num)).1,
   (C8_total_recomputed_at_end_and_preserved_by_fold ({} : SystemStats) none
     cdW8 none none none freshCallC8 (by norm_num [cdW8]) (by norm_num)).2⟩

/-- C9 counterexample: during the follow-up window of the C9 scenario run, a
reachable history snapshot contains a second SYSTEM message away from index 0
(the transient tool note appended at the end), violating the claimed
invariant "at most one SYSTEM message and only at index 0" at that point of
processing. -/
theorem C9_second_system_message_mid_turn :
    ((process_message llmC9 "now" 5 10 stBase "My order AB12CD is broken").snapshots.any
      (fun h => !(systemOk h))) = true := by
  decide

/-- C9 as amended: the single-SYSTEM-at-index-0 invariant holds of the
conversation history at the end of every processed turn — rather than at
every intermediate point — provided it held on entry and the follow-up call
returns rather than raising (during the follow-up window the transient note
is a second SYSTEM message at the last index, and when the follow-up raises
the note outlives the turn, cf. C3). -/
theorem C9_invariant_restored_at_turn_end (llm : LLMBehavior) (now : String)
    (fw tw : ℚ) (st : AgentState) (um : String)
    (hfu : ∀ msgs, (llm.followupChat msgs).isOk = true)
    (hinv : systemOk st.history = true) :
    systemOk (process_message llm now fw tw st um).state.history = true := by
  have h1 : systemOk (st.history ++ [⟨Role.user, um⟩]) = true :=
    systemOk_append _ _ hinv rfl
  have h3 : systemOk (update_system_prompt now
      ((update_memory llm
        { st with history := st.history ++ [⟨Role.user, um⟩] }).1)).history = true := by
    apply systemOk_update_system_prompt
    rw [update_memory_history]
    exact h1
  simp only [process_message]
  split
  · exact systemOk_mkErrorTurn _ _ _ h3
  · rename_i historyToUse hcondensed
    split
    · split
      · exact systemOk_mkErrorTurn _ _ _ h3
      · exact systemOk_mkErrorTurn _ _ _ h3
    · rename_i resp hresp
      split
      · split
        · rename_i e herr
          exfalso
          have := get_condensed_history_error_imp _ _ herr
          simp at this
        · rename_i historyForFollowup hcond2
          split
          · rename_i e herr2
            exfalso
            have := hfu historyForFollowup
            rw [herr2] at this
            simp [Except.isOk, Except.toBool] at this
          · rename_i fresp hfresp
            apply systemOk_emitEnd
            simp only [List.dropLast_concat]
            rw [execToolCalls_history]
            exact h3
      · apply systemOk_emitEnd
        rw [execToolCalls_history]
        exact h3

/-- Witness for the amended C9 at a concrete run with a returning follow-up. -/
theorem C9_invariant_restored_at_turn_end_witness :
    (∀ msgs, (llmW9.followupChat msgs).isOk = true) ∧
    systemOk stBase.history = true ∧
    systemOk (process_message llmW9 "now" 5 10 stBase "Hi").state.history = true :=
  ⟨fun _ => rfl, by decide,
   C9_invariant_restored_at_turn_end llmW9 "now" 5 10 stBase "Hi"
     (fun _ => rfl) (by decide)⟩

/-- C10: `_update_memory` is idempotent: calling it a second time with no
messages appended in between performs no summarization call (the flag of the
second invocation is false) and leaves the state — in particular
`last_summary_point` — exactly as after the first invocation. -/
theorem C10_maybeCondense_idempotent (llm : LLMBehavior) (st : AgentState) :
    update_memory llm (update_memory llm st).1 = ((update_memory llm st).1, false) := by
  simp only [update_memory]
  split_ifs with h1 h2 h3 h4 <;>
    first
      | rfl
      | (exfalso; simp only [List.length_drop] at *; omega)

end VoiceAgent
